import Mathlib

/-!
Verification of the aggregated shutdown coordinator of `cmd/dice`
(`setupOTelSDK` in `otel.go`).

The embedding models:
* a Go `error` value as the list of its leaf errors (`[]` is `nil`;
  `errors.Join` concatenates leaves and is `nil` exactly when all
  arguments are),
* the `shutdownFuncs` slice and the `shutdown` closure of
  `setupOTelSDK`, instrumented with an invocation log,
* `setupOTelSDK` itself, with the three provider constructors
  (`newTracerProvider`, `newMeterProvider`, `newLoggerProvider`)
  abstracted as an environment that either fails or yields a provider,
  a provider being identified with its `Shutdown` method, and with the
  process-wide globals (`otel.SetTextMapPropagator`,
  `otel.SetTracerProvider`, `otel.SetMeterProvider`,
  `global.SetLoggerProvider`) made explicit, together with an event log
  recording the order of the observable steps.
-/

set_option autoImplicit false

namespace Dice

/-- A Go `error` value, modelled by the list of its leaf errors.
`[]` models the `nil` error (success); a non-empty list models a non-nil
error whose leaves, in `errors.Is` traversal order, are the elements. -/
abbrev GoErr (E : Type) := List E

/-- `errors.Join(a, b)`: the joined error holds the leaves of both
arguments in order and is `nil` exactly when both arguments are `nil`. -/
def errorsJoin {E : Type} (a b : GoErr E) : GoErr E := a ++ b

/-- A teardown operation, `func(context.Context) error`. -/
abbrev Teardown (Ctx E : Type) := Ctx → GoErr E

/-- The state captured by the `shutdown` closure returned by
`setupOTelSDK`: the `shutdownFuncs` slice of registered cleanup
functions (otel.go line 24). -/
structure Registry (Ctx E : Type) where
  shutdownFuncs : List (Teardown Ctx E)

/-- One call of the `shutdown` closure (otel.go lines 29-36):

```
for _, fn := range shutdownFuncs {
    err = errors.Join(err, fn(ctx))
}
shutdownFuncs = nil
return err
```

Returns the registry state after the call (`shutdownFuncs = nil`), the
combined error, and the invocation log: each executed operation paired
with the context it was called with, in execution order.  The log is
instrumentation; calling the operations is the loop's only side effect
besides clearing the slice. -/
def shutdownRun {Ctx E : Type} (s : Registry Ctx E) (ctx : Ctx) :
    Registry Ctx E × GoErr E × List (Teardown Ctx E × Ctx) :=
  let folded := s.shutdownFuncs.foldl
    (fun acc fn => (errorsJoin acc.1 (fn ctx), acc.2 ++ [(fn, ctx)]))
    (([] : GoErr E), ([] : List (Teardown Ctx E × Ctx)))
  (⟨[]⟩, folded.1, folded.2)

/-- Repeated calls of the returned `shutdown` closure: threads the
registry state through a sequence of contexts, collecting each call's
returned error and invocation log. -/
def runShutdownSeq {Ctx E : Type} (s : Registry Ctx E) :
    List Ctx → Registry Ctx E × List (GoErr E × List (Teardown Ctx E × Ctx))
  | [] => (s, [])
  | c :: cs =>
    let r1 := shutdownRun s c
    let rest := runShutdownSeq r1.1 cs
    (rest.1, (r1.2.1, r1.2.2) :: rest.2)

/-- The registry is in the spec's *Drained* state: no cleanup function
remains registered. -/
def Drained {Ctx E : Type} (s : Registry Ctx E) : Prop :=
  s.shutdownFuncs = []

/-- Closed form of the error-joining, log-appending fold shared by the
`shutdown` loop and the drain performed by `handleErr`. -/
theorem foldl_errlog {E α L : Type} (f : α → GoErr E) (g : α → L)
    (xs : List α) (e0 : GoErr E) (l0 : List L) :
    xs.foldl (fun acc x => (errorsJoin acc.1 (f x), acc.2 ++ [g x])) (e0, l0)
      = (e0 ++ (xs.map f).flatten, l0 ++ xs.map g) := by
  induction xs generalizing e0 l0 with
  | nil => simp
  | cons x xs ih =>
    simp only [List.foldl_cons]
    rw [ih]
    simp [errorsJoin]

/-- Closed form of one `shutdown` call: the registry is cleared, the
returned error is the concatenation of the leaves of every operation's
result, and every registered operation is invoked with the given
context, in registration order. -/
theorem shutdownRun_eq {Ctx E : Type} (s : Registry Ctx E) (ctx : Ctx) :
    shutdownRun s ctx
      = (⟨[]⟩, (s.shutdownFuncs.map (fun fn => fn ctx)).flatten,
          s.shutdownFuncs.map (fun fn => (fn, ctx))) := by
  have h := foldl_errlog (fun fn : Teardown Ctx E => fn ctx)
    (fun fn : Teardown Ctx E => (fn, ctx)) s.shutdownFuncs [] []
  simpa [shutdownRun] using h

/-- A `shutdown` call on a drained registry keeps it drained, invokes
nothing, and returns `nil`. -/
theorem shutdownRun_drained {Ctx E : Type} (s : Registry Ctx E)
    (h : Drained s) (ctx : Ctx) :
    shutdownRun s ctx = (⟨[]⟩, [], []) := by
  have h2 : s.shutdownFuncs = [] := h
  simp [shutdownRun_eq, h2]

/-- Any sequence of `shutdown` calls on a drained registry keeps it
drained and every call invokes nothing and returns `nil`. -/
theorem runShutdownSeq_drained {Ctx E : Type} (cs : List Ctx) :
    runShutdownSeq (⟨[]⟩ : Registry Ctx E) cs
      = (⟨[]⟩, cs.map fun _ => ([], [])) := by
  induction cs with
  | nil => rfl
  | cons c cs ih =>
    simp [runShutdownSeq, shutdownRun_eq, ih]

/-- The three telemetry signals set up by `setupOTelSDK`. -/
inductive Signal where
  | trace
  | metric
  | log
  deriving DecidableEq, Repr

/-- Observable steps of `setupOTelSDK`, recorded in program order:
the `otel.SetTextMapPropagator` call, the call of a signal's provider
constructor, the append of that provider's `Shutdown` method to
`shutdownFuncs`, the publication of the provider to the process-wide
global, and the invocation of a registered teardown during the
`shutdown(ctx)` call made by `handleErr`. -/
inductive SetupEvent where
  | setTextMapPropagator
  | constructCall (s : Signal)
  | registerTeardown (s : Signal)
  | publishGlobal (s : Signal)
  | runTeardown (s : Signal)
  deriving DecidableEq, Repr

/-- Process-wide global state touched by `setupOTelSDK`:
`otel.SetTextMapPropagator`, `otel.SetTracerProvider`,
`otel.SetMeterProvider` and `global.SetLoggerProvider`.  A provider
handle is identified with its `Shutdown` method; `Pg` is the type of
propagators. -/
structure Globals (Ctx E Pg : Type) where
  textMapPropagator : Option Pg
  tracerProvider : Option (Teardown Ctx E)
  meterProvider : Option (Teardown Ctx E)
  loggerProvider : Option (Teardown Ctx E)

/-- The behaviour of the three provider constructors
(`newTracerProvider`, `newMeterProvider`, `newLoggerProvider`): each
either fails with an error or yields a provider, represented by its
`Shutdown` method. -/
structure OTelEnv (Ctx E : Type) where
  newTracerProvider : Except E (Teardown Ctx E)
  newMeterProvider : Except E (Teardown Ctx E)
  newLoggerProvider : Except E (Teardown Ctx E)

/-- Result of `setupOTelSDK`: the final `shutdownFuncs` slice as seen by
the returned `shutdown` closure (each entry tagged with the signal it
belongs to; the slice itself is the list of second components), the
returned error, the final global state, and the event log. -/
structure SetupOutcome (Ctx E Pg : Type) where
  registry : List (Signal × Teardown Ctx E)
  err : GoErr E
  globals : Globals Ctx E Pg
  events : List SetupEvent

/-- The `shutdown(ctx)` call made by `handleErr` (otel.go line 41):
runs every cleanup function registered so far in order, joining the
errors, and logs a `runTeardown` event per call. -/
def drainRegs {Ctx E : Type} (regs : List (Signal × Teardown Ctx E))
    (ctx : Ctx) : GoErr E × List SetupEvent :=
  regs.foldl
    (fun acc p => (errorsJoin acc.1 (p.2 ctx), acc.2 ++ [SetupEvent.runTeardown p.1]))
    (([] : GoErr E), ([] : List SetupEvent))

/-- Closed form of the `handleErr` drain. -/
theorem drainRegs_eq {Ctx E : Type} (regs : List (Signal × Teardown Ctx E))
    (ctx : Ctx) :
    drainRegs regs ctx
      = ((regs.map (fun p => p.2 ctx)).flatten,
          regs.map (fun p => SetupEvent.runTeardown p.1)) := by
  have h := foldl_errlog (fun p : Signal × Teardown Ctx E => p.2 ctx)
    (fun p : Signal × Teardown Ctx E => SetupEvent.runTeardown p.1) regs [] []
  simpa [drainRegs] using h

/-- `setupOTelSDK` (otel.go lines 23-81), with the OpenTelemetry
library abstracted by `env` (the three provider constructors), `prop`
the propagator built by `newPropagator`, `g0` the global state on
entry, and `ctx` the context argument.  On a constructor failure,
`handleErr(err)` joins the construction error with the result of
`shutdown(ctx)`, which drains the registered cleanup functions and
clears the slice, and the function returns at once. -/
def setupOTelSDK {Ctx E Pg : Type} (env : OTelEnv Ctx E) (prop : Pg)
    (g0 : Globals Ctx E Pg) (ctx : Ctx) : SetupOutcome Ctx E Pg :=
  let g1 : Globals Ctx E Pg := { g0 with textMapPropagator := some prop }
  let ev1 : List SetupEvent := [SetupEvent.setTextMapPropagator]
  match env.newTracerProvider with
  | Except.error e =>
    let d := drainRegs ([] : List (Signal × Teardown Ctx E)) ctx
    { registry := [], err := errorsJoin [e] d.1, globals := g1,
      events := ev1 ++ [SetupEvent.constructCall Signal.trace] ++ d.2 }
  | Except.ok tpShutdown =>
    let regs1 := [(Signal.trace, tpShutdown)]
    let g2 := { g1 with tracerProvider := some tpShutdown }
    let ev2 := ev1 ++ [SetupEvent.constructCall Signal.trace,
      SetupEvent.registerTeardown Signal.trace,
      SetupEvent.publishGlobal Signal.trace]
    match env.newMeterProvider with
    | Except.error e =>
      let d := drainRegs regs1 ctx
      { registry := [], err := errorsJoin [e] d.1, globals := g2,
        events := ev2 ++ [SetupEvent.constructCall Signal.metric] ++ d.2 }
    | Except.ok mpShutdown =>
      let regs2 := regs1 ++ [(Signal.metric, mpShutdown)]
      let g3 := { g2 with meterProvider := some mpShutdown }
      let ev3 := ev2 ++ [SetupEvent.constructCall Signal.metric,
        SetupEvent.registerTeardown Signal.metric,
        SetupEvent.publishGlobal Signal.metric]
      match env.newLoggerProvider with
      | Except.error e =>
        let d := drainRegs regs2 ctx
        { registry := [], err := errorsJoin [e] d.1, globals := g3,
          events := ev3 ++ [SetupEvent.constructCall Signal.log] ++ d.2 }
      | Except.ok lpShutdown =>
        { registry := regs2 ++ [(Signal.log, lpShutdown)],
          err := [],
          globals := { g3 with loggerProvider := some lpShutdown },
          events := ev3 ++ [SetupEvent.constructCall Signal.log,
            SetupEvent.registerTeardown Signal.log,
            SetupEvent.publishGlobal Signal.log] }

/-- Event `a` occurs strictly before event `b` in the log `evs`. -/
def eventBefore (a b : SetupEvent) (evs : List SetupEvent) : Prop :=
  ∃ l1 l2 l3, evs = l1 ++ a :: l2 ++ b :: l3

/-- The `runTeardown` events of a log, in order: the teardown
invocations performed by `handleErr`'s drain. -/
def runTeardownEvents (evs : List SetupEvent) : List SetupEvent :=
  evs.filter fun ev =>
    match ev with
    | SetupEvent.runTeardown _ => true
    | _ => false

/-- A concrete teardown operation for the witnesses: fails with the
single leaf error `k`. -/
def tFail (k : Nat) : Teardown Unit Nat := fun _ => [k]

/-- A concrete teardown operation for the witnesses: succeeds. -/
def tOk : Teardown Unit Nat := fun _ => []

/-- A concrete registry for the witnesses: a failing, a succeeding and
another failing operation, registered in that order. -/
def regW : Registry Unit Nat := ⟨[tFail 2, tOk, tFail 4]⟩

/-- Claim C2: for every sequence of registered teardown operations and
every context passed to `shutdown` (an already-canceled one included),
`shutdown` invokes every registered operation with that context and
does not short-circuit on failure: whatever errors any operation
returns, the invocation log is exactly the full list of registered
operations, each paired with the given context. -/
theorem C2_shutdown_invokes_every_op {Ctx E : Type}
    (s : Registry Ctx E) (ctx : Ctx) :
    (shutdownRun s ctx).2.2 = s.shutdownFuncs.map (fun fn => (fn, ctx))
    ∧ ∀ fn ∈ s.shutdownFuncs, (fn, ctx) ∈ (shutdownRun s ctx).2.2 := by
  refine ⟨by simp [shutdownRun_eq], ?_⟩
  intro fn hfn
  simp only [shutdownRun_eq]
  exact List.mem_map.mpr ⟨fn, hfn, rfl⟩

/-- Witness for C2 at a concrete registry whose first operation fails:
the succeeding operation registered after it is still invoked. -/
theorem C2_shutdown_invokes_every_op_witness :
    (tOk, ()) ∈ (shutdownRun regW ()).2.2 :=
  (C2_shutdown_invokes_every_op regW ()).2 tOk (by simp [regW])

/-- Claim C3: the error returned by `shutdown` aggregates exactly the
errors of the failing operations — its leaves are precisely the leaves
produced by the registered operations, each individually contained and
nothing else — and when zero operations fail the result is `[]`, the
model of the `nil` error, not an empty-but-present aggregate. -/
theorem C3_shutdown_error_aggregation {Ctx E : Type}
    (s : Registry Ctx E) (ctx : Ctx) :
    (shutdownRun s ctx).2.1 = (s.shutdownFuncs.map (fun fn => fn ctx)).flatten
    ∧ (∀ e : E, e ∈ (shutdownRun s ctx).2.1 ↔ ∃ fn ∈ s.shutdownFuncs, e ∈ fn ctx)
    ∧ ((∀ fn ∈ s.shutdownFuncs, fn ctx = []) → (shutdownRun s ctx).2.1 = []) := by
  refine ⟨by simp [shutdownRun_eq], ?_, ?_⟩
  · intro e
    simp [shutdownRun_eq]
  · intro h
    simp only [shutdownRun_eq]
    rw [List.flatten_eq_nil_iff]
    intro x hx
    rcases List.mem_map.mp hx with ⟨fn, hfn, rfl⟩
    exact h fn hfn

/-- Witness for C3: on the concrete registry, the aggregate's leaves are
exactly the two failing errors, in order, and the success case returns
`nil` on a registry whose operations all succeed. -/
theorem C3_shutdown_error_aggregation_witness :
    (shutdownRun regW ()).2.1 = [2, 4]
    ∧ (shutdownRun (⟨[tOk, tOk]⟩ : Registry Unit Nat) ()).2.1 = [] := by
  constructor
  · rw [(C3_shutdown_error_aggregation regW ()).1]
    simp [regW, tFail, tOk]
  · exact (C3_shutdown_error_aggregation ⟨[tOk, tOk]⟩ ()).2.2
      (by intro fn hfn; simp [tOk] at hfn; simp [hfn, tOk])

/-- Claim C4: calling `shutdown` twice in succession on the same
registry: the first call executes every registered operation exactly
once and returns their aggregate; the second call executes zero
operations and returns `nil`. -/
theorem C4_shutdown_twice {Ctx E : Type}
    (s : Registry Ctx E) (c1 c2 : Ctx) :
    (shutdownRun s c1).2.2 = s.shutdownFuncs.map (fun fn => (fn, c1))
    ∧ (shutdownRun s c1).2.1 = (s.shutdownFuncs.map (fun fn => fn c1)).flatten
    ∧ (shutdownRun (shutdownRun s c1).1 c2).2.2 = []
    ∧ (shutdownRun (shutdownRun s c1).1 c2).2.1 = [] := by
  simp [shutdownRun_eq]

/-- Claim C5: a single `shutdown` call invokes the registered teardown
operations in exactly the order in which they were registered (forward
order, not reversed): the operations of the invocation log are the
`shutdownFuncs` list itself. -/
theorem C5_shutdown_order {Ctx E : Type}
    (s : Registry Ctx E) (ctx : Ctx) :
    ((shutdownRun s ctx).2.2).map Prod.fst = s.shutdownFuncs := by
  simp only [shutdownRun_eq, List.map_map]
  have h : (Prod.fst ∘ fun fn : Teardown Ctx E => (fn, ctx)) = id := rfl
  rw [h, List.map_id]

/-- Claim C6: the registry reaches the *Drained* state at the first
`shutdown` call and never returns to *Open*: after the first call the
registry is drained, it stays drained through any sequence of further
calls, and every such later call executes zero operations and returns
`nil`.  Registration happens only inside `setupOTelSDK`, before the
closure is returned, so nothing is registered after draining. -/
theorem C6_drained_exactly_once {Ctx E : Type}
    (s : Registry Ctx E) (c : Ctx) (cs : List Ctx) :
    Drained (shutdownRun s c).1
    ∧ Drained (runShutdownSeq (shutdownRun s c).1 cs).1
    ∧ ∀ out ∈ (runShutdownSeq (shutdownRun s c).1 cs).2,
        out.1 = [] ∧ out.2 = [] := by
  have h1 : (shutdownRun s c).1 = (⟨[]⟩ : Registry Ctx E) := by
    simp [shutdownRun_eq]
  refine ⟨by simp [h1, Drained], ?_, ?_⟩
  · rw [h1, runShutdownSeq_drained]
    simp [Drained]
  · rw [h1, runShutdownSeq_drained]
    intro out hout
    rcases List.mem_map.mp hout with ⟨c2, _, rfl⟩
    exact ⟨rfl, rfl⟩

/-- Witness for C6 at the concrete registry and two further calls:
drained after the first call, still drained at the end, and the second
call returned `nil` with an empty log. -/
theorem C6_drained_exactly_once_witness :
    Drained (runShutdownSeq (shutdownRun regW ()).1 [(), ()]).1
    ∧ (([], []) : GoErr Nat × List (Teardown Unit Nat × Unit)).1 = [] := by
  refine ⟨(C6_drained_exactly_once regW () [(), ()]).2.1, ?_⟩
  exact ((C6_drained_exactly_once regW () [(), ()]).2.2 ([], [])
    (by simp [runShutdownSeq, shutdownRun, regW, tFail, tOk, errorsJoin])).1

/-- A concrete environment for the witnesses: the tracer and meter
constructors succeed (the tracer provider's teardown fails with leaf
error 2, the meter provider's succeeds), the logger constructor fails
with leaf error 7. -/
def envLogFails : OTelEnv Unit Nat :=
  ⟨Except.ok (tFail 2), Except.ok tOk, Except.error 7⟩

/-- Empty global state for the witnesses. -/
def g0W : Globals Unit Nat Unit := ⟨none, none, none, none⟩

/-- Claim C1: if constructing provider N fails during `setupOTelSDK`,
the teardown operations of the already-registered providers 1..N-1 are
all still invoked (the `runTeardown` events are exactly those
providers, in registration order) and the returned error is
`errors.Join` of the construction error with the aggregate error of
that `shutdown(ctx)` call over the registered teardowns. -/
theorem C1_partial_rollback {Ctx E Pg : Type} (env : OTelEnv Ctx E)
    (prop : Pg) (g0 : Globals Ctx E Pg) (ctx : Ctx) :
    (∀ e, env.newTracerProvider = Except.error e →
      (setupOTelSDK env prop g0 ctx).err
          = errorsJoin [e] (shutdownRun (⟨[]⟩ : Registry Ctx E) ctx).2.1
        ∧ runTeardownEvents (setupOTelSDK env prop g0 ctx).events = [])
    ∧ (∀ e t, env.newTracerProvider = Except.ok t →
        env.newMeterProvider = Except.error e →
      (setupOTelSDK env prop g0 ctx).err
          = errorsJoin [e] (shutdownRun (⟨[t]⟩ : Registry Ctx E) ctx).2.1
        ∧ runTeardownEvents (setupOTelSDK env prop g0 ctx).events
            = [SetupEvent.runTeardown Signal.trace])
    ∧ (∀ e t m, env.newTracerProvider = Except.ok t →
        env.newMeterProvider = Except.ok m →
        env.newLoggerProvider = Except.error e →
      (setupOTelSDK env prop g0 ctx).err
          = errorsJoin [e] (shutdownRun (⟨[t, m]⟩ : Registry Ctx E) ctx).2.1
        ∧ runTeardownEvents (setupOTelSDK env prop g0 ctx).events
            = [SetupEvent.runTeardown Signal.trace,
                SetupEvent.runTeardown Signal.metric]) := by
  refine ⟨?_, ?_, ?_⟩
  · intro e h1
    constructor
    · simp [setupOTelSDK, h1, drainRegs_eq, shutdownRun_eq]
    · simp [setupOTelSDK, h1, drainRegs_eq, runTeardownEvents]
  · intro e t h1 h2
    constructor
    · simp [setupOTelSDK, h1, h2, drainRegs_eq, shutdownRun_eq]
    · simp [setupOTelSDK, h1, h2, drainRegs_eq, runTeardownEvents]
  · intro e t m h1 h2 h3
    constructor
    · simp [setupOTelSDK, h1, h2, h3, drainRegs_eq, shutdownRun_eq]
    · simp [setupOTelSDK, h1, h2, h3, drainRegs_eq, runTeardownEvents]

/-- Witness for C1 at the concrete environment whose logger constructor
fails: the tracer and meter teardowns both ran, and the returned error
is the construction error 7 followed by the tracer teardown error 2. -/
theorem C1_partial_rollback_witness :
    (setupOTelSDK envLogFails () g0W ()).err = [7, 2]
    ∧ runTeardownEvents (setupOTelSDK envLogFails () g0W ()).events
        = [SetupEvent.runTeardown Signal.trace,
            SetupEvent.runTeardown Signal.metric] := by
  have h := (C1_partial_rollback envLogFails () g0W ()).2.2 7 (tFail 2) tOk
    rfl rfl rfl
  refine ⟨?_, h.2⟩
  rw [h.1]
  simp [errorsJoin, shutdownRun_eq, tFail, tOk]

/-- Claim C9: `setupOTelSDK` publishes the text-map propagator as its
very first observable step, before any fallible constructor runs, and
on every exit path — the three failure paths included — the global
propagator is still set.  The `shutdown` closure acts only on the
registry (its state is `Registry`, which mentions no global), so no
teardown is registered for the propagator and no shutdown call can
unset it. -/
theorem C9_propagator_always_set {Ctx E Pg : Type} (env : OTelEnv Ctx E)
    (prop : Pg) (g0 : Globals Ctx E Pg) (ctx : Ctx) :
    (setupOTelSDK env prop g0 ctx).events.head?
        = some SetupEvent.setTextMapPropagator
    ∧ (setupOTelSDK env prop g0 ctx).globals.textMapPropagator = some prop := by
  rcases h1 : env.newTracerProvider with e | t
  · simp [setupOTelSDK, h1]
  rcases h2 : env.newMeterProvider with e | m
  · simp [setupOTelSDK, h1, h2]
  rcases h3 : env.newLoggerProvider with e | l
  · simp [setupOTelSDK, h1, h2, h3]
  · simp [setupOTelSDK, h1, h2, h3]

/-- Claim C10: when `setupOTelSDK` returns a construction error, the
returned `shutdown` closure is still callable over a registry that
`handleErr` already drained: the captured `shutdownFuncs` slice is
empty, and calling the closure afterwards invokes zero teardown
operations and returns `nil`. -/
theorem C10_shutdown_after_error_noop {Ctx E Pg : Type} (env : OTelEnv Ctx E)
    (prop : Pg) (g0 : Globals Ctx E Pg) (ctx c2 : Ctx)
    (h : (setupOTelSDK env prop g0 ctx).err ≠ []) :
    (setupOTelSDK env prop g0 ctx).registry = []
    ∧ (shutdownRun (⟨((setupOTelSDK env prop g0 ctx).registry).map Prod.snd⟩
        : Registry Ctx E) c2).2.2 = []
    ∧ (shutdownRun (⟨((setupOTelSDK env prop g0 ctx).registry).map Prod.snd⟩
        : Registry Ctx E) c2).2.1 = [] := by
  have hreg : (setupOTelSDK env prop g0 ctx).registry = [] := by
    rcases h1 : env.newTracerProvider with e | t
    · simp [setupOTelSDK, h1]
    rcases h2 : env.newMeterProvider with e | m
    · simp [setupOTelSDK, h1, h2]
    rcases h3 : env.newLoggerProvider with e | l
    · simp [setupOTelSDK, h1, h2, h3]
    · exact absurd (by simp [setupOTelSDK, h1, h2, h3]) h
  refine ⟨hreg, ?_, ?_⟩ <;> simp [hreg, shutdownRun_eq]

/-- Witness for C10 at the concrete failing environment: the captured
registry is empty. -/
theorem C10_shutdown_after_error_noop_witness :
    (setupOTelSDK envLogFails () g0W ()).registry = [] :=
  (C10_shutdown_after_error_noop envLogFails () g0W () () (by decide)).1

/-- Claim C7: `setupOTelSDK` performs the provider construction steps
in the fixed order trace, then metric, then log: the tracer constructor
is always called; whenever the meter constructor is called, the tracer
provider was constructed and its teardown registered earlier in the
log; and whenever the logger constructor is called, the meter provider
was constructed and registered earlier. -/
theorem C7_construction_order {Ctx E Pg : Type} (env : OTelEnv Ctx E)
    (prop : Pg) (g0 : Globals Ctx E Pg) (ctx : Ctx) :
    SetupEvent.constructCall Signal.trace ∈ (setupOTelSDK env prop g0 ctx).events
    ∧ (SetupEvent.constructCall Signal.metric ∈ (setupOTelSDK env prop g0 ctx).events →
        eventBefore (SetupEvent.constructCall Signal.trace)
          (SetupEvent.constructCall Signal.metric)
          (setupOTelSDK env prop g0 ctx).events
        ∧ eventBefore (SetupEvent.registerTeardown Signal.trace)
          (SetupEvent.constructCall Signal.metric)
          (setupOTelSDK env prop g0 ctx).events)
    ∧ (SetupEvent.constructCall Signal.log ∈ (setupOTelSDK env prop g0 ctx).events →
        eventBefore (SetupEvent.constructCall Signal.metric)
          (SetupEvent.constructCall Signal.log)
          (setupOTelSDK env prop g0 ctx).events
        ∧ eventBefore (SetupEvent.registerTeardown Signal.metric)
          (SetupEvent.constructCall Signal.log)
          (setupOTelSDK env prop g0 ctx).events) := by
  rcases h1 : env.newTracerProvider with e | t
  · have hev : (setupOTelSDK env prop g0 ctx).events
        = [SetupEvent.setTextMapPropagator,
            SetupEvent.constructCall Signal.trace] := by
      simp [setupOTelSDK, h1, drainRegs_eq]
    refine ⟨by simp [hev], ?_, ?_⟩
    · intro hmem; rw [hev] at hmem; simp at hmem
    · intro hmem; rw [hev] at hmem; simp at hmem
  rcases h2 : env.newMeterProvider with e | m
  · have hev : (setupOTelSDK env prop g0 ctx).events
        = [SetupEvent.setTextMapPropagator,
            SetupEvent.constructCall Signal.trace,
            SetupEvent.registerTeardown Signal.trace,
            SetupEvent.publishGlobal Signal.trace,
            SetupEvent.constructCall Signal.metric,
            SetupEvent.runTeardown Signal.trace] := by
      simp [setupOTelSDK, h1, h2, drainRegs_eq]
    refine ⟨by simp [hev], ?_, ?_⟩
    · intro _
      constructor
      · exact ⟨[SetupEvent.setTextMapPropagator],
          [SetupEvent.registerTeardown Signal.trace,
            SetupEvent.publishGlobal Signal.trace],
          [SetupEvent.runTeardown Signal.trace], by simp [hev, eventBefore]⟩
      · exact ⟨[SetupEvent.setTextMapPropagator,
            SetupEvent.constructCall Signal.trace],
          [SetupEvent.publishGlobal Signal.trace],
          [SetupEvent.runTeardown Signal.trace], by simp [hev, eventBefore]⟩
    · intro hmem; rw [hev] at hmem; simp at hmem
  rcases h3 : env.newLoggerProvider with e | l
  · have hev : (setupOTelSDK env prop g0 ctx).events
        = [SetupEvent.setTextMapPropagator,
            SetupEvent.constructCall Signal.trace,
            SetupEvent.registerTeardown Signal.trace,
            SetupEvent.publishGlobal Signal.trace,
            SetupEvent.constructCall Signal.metric,
            SetupEvent.registerTeardown Signal.metric,
            SetupEvent.publishGlobal Signal.metric,
            SetupEvent.constructCall Signal.log,
            SetupEvent.runTeardown Signal.trace,
            SetupEvent.runTeardown Signal.metric] := by
      simp [setupOTelSDK, h1, h2, h3, drainRegs_eq]
    refine ⟨by simp [hev], ?_, ?_⟩
    · intro _
      constructor
      · exact ⟨[SetupEvent.setTextMapPropagator],
          [SetupEvent.registerTeardown Signal.trace,
            SetupEvent.publishGlobal Signal.trace],
          [SetupEvent.registerTeardown Signal.metric,
            SetupEvent.publishGlobal Signal.metric,
            SetupEvent.constructCall Signal.log,
            SetupEvent.runTeardown Signal.trace,
            SetupEvent.runTeardown Signal.metric], by simp [hev, eventBefore]⟩
      · exact ⟨[SetupEvent.setTextMapPropagator,
            SetupEvent.constructCall Signal.trace],
          [SetupEvent.publishGlobal Signal.trace],
          [SetupEvent.registerTeardown Signal.metric,
            SetupEvent.publishGlobal Signal.metric,
            SetupEvent.constructCall Signal.log,
            SetupEvent.runTeardown Signal.trace,
            SetupEvent.runTeardown Signal.metric], by simp [hev, eventBefore]⟩
    · intro _
      constructor
      · exact ⟨[SetupEvent.setTextMapPropagator,
            SetupEvent.constructCall Signal.trace,
            SetupEvent.registerTeardown Signal.trace,
            SetupEvent.publishGlobal Signal.trace],
          [SetupEvent.registerTeardown Signal.metric,
            SetupEvent.publishGlobal Signal.metric],
          [SetupEvent.runTeardown Signal.trace,
            SetupEvent.runTeardown Signal.metric], by simp [hev, eventBefore]⟩
      · exact ⟨[SetupEvent.setTextMapPropagator,
            SetupEvent.constructCall Signal.trace,
            SetupEvent.registerTeardown Signal.trace,
            SetupEvent.publishGlobal Signal.trace,
            SetupEvent.constructCall Signal.metric],
          [SetupEvent.publishGlobal Signal.metric],
          [SetupEvent.runTeardown Signal.trace,
            SetupEvent.runTeardown Signal.metric], by simp [hev, eventBefore]⟩
  · have hev : (setupOTelSDK env prop g0 ctx).events
        = [SetupEvent.setTextMapPropagator,
            SetupEvent.constructCall Signal.trace,
            SetupEvent.registerTeardown Signal.trace,
            SetupEvent.publishGlobal Signal.trace,
            SetupEvent.constructCall Signal.metric,
            SetupEvent.registerTeardown Signal.metric,
            SetupEvent.publishGlobal Signal.metric,
            SetupEvent.constructCall Signal.log,
            SetupEvent.registerTeardown Signal.log,
            SetupEvent.publishGlobal Signal.log] := by
      simp [setupOTelSDK, h1, h2, h3]
    refine ⟨by simp [hev], ?_, ?_⟩
    · intro _
      constructor
      · exact ⟨[SetupEvent.setTextMapPropagator],
          [SetupEvent.registerTeardown Signal.trace,
            SetupEvent.publishGlobal Signal.trace],
          [SetupEvent.registerTeardown Signal.metric,
            SetupEvent.publishGlobal Signal.metric,
            SetupEvent.constructCall Signal.log,
            SetupEvent.registerTeardown Signal.log,
            SetupEvent.publishGlobal Signal.log], by simp [hev, eventBefore]⟩
      · exact ⟨[SetupEvent.setTextMapPropagator,
            SetupEvent.constructCall Signal.trace],
          [SetupEvent.publishGlobal Signal.trace],
          [SetupEvent.registerTeardown Signal.metric,
            SetupEvent.publishGlobal Signal.metric,
            SetupEvent.constructCall Signal.log,
            SetupEvent.registerTeardown Signal.log,
            SetupEvent.publishGlobal Signal.log], by simp [hev, eventBefore]⟩
    · intro _
      constructor
      · exact ⟨[SetupEvent.setTextMapPropagator,
            SetupEvent.constructCall Signal.trace,
            SetupEvent.registerTeardown Signal.trace,
            SetupEvent.publishGlobal Signal.trace],
          [SetupEvent.registerTeardown Signal.metric,
            SetupEvent.publishGlobal Signal.metric],
          [SetupEvent.registerTeardown Signal.log,
            SetupEvent.publishGlobal Signal.log], by simp [hev, eventBefore]⟩
      · exact ⟨[SetupEvent.setTextMapPropagator,
            SetupEvent.constructCall Signal.trace,
            SetupEvent.registerTeardown Signal.trace,
            SetupEvent.publishGlobal Signal.trace,
            SetupEvent.constructCall Signal.metric],
          [SetupEvent.publishGlobal Signal.metric],
          [SetupEvent.registerTeardown Signal.log,
            SetupEvent.publishGlobal Signal.log], by simp [hev, eventBefore]⟩

/-- Witness for C7 at the concrete failing environment: the meter
constructor was called, so the tracer construction happened earlier in
the log. -/
theorem C7_construction_order_witness :
    eventBefore (SetupEvent.constructCall Signal.trace)
      (SetupEvent.constructCall Signal.metric)
      (setupOTelSDK envLogFails () g0W ()).events :=
  ((C7_construction_order envLogFails () g0W ()).2.1 (by decide)).1

/-- Claim C8: for every signal, the provider's teardown is appended to
`shutdownFuncs` strictly before the provider is published to the
process-wide global, so a published provider always has its teardown
already registered; and when a signal's constructor fails, that signal
is neither registered nor published — its global keeps the value it
had on entry. -/
theorem C8_register_before_publish {Ctx E Pg : Type} (env : OTelEnv Ctx E)
    (prop : Pg) (g0 : Globals Ctx E Pg) (ctx : Ctx) :
    (∀ sg : Signal,
      SetupEvent.publishGlobal sg ∈ (setupOTelSDK env prop g0 ctx).events →
        eventBefore (SetupEvent.registerTeardown sg)
          (SetupEvent.publishGlobal sg) (setupOTelSDK env prop g0 ctx).events)
    ∧ (∀ e, env.newTracerProvider = Except.error e →
        SetupEvent.registerTeardown Signal.trace
            ∉ (setupOTelSDK env prop g0 ctx).events
        ∧ SetupEvent.publishGlobal Signal.trace
            ∉ (setupOTelSDK env prop g0 ctx).events
        ∧ (setupOTelSDK env prop g0 ctx).globals.tracerProvider
            = g0.tracerProvider)
    ∧ (∀ e, env.newMeterProvider = Except.error e →
        SetupEvent.registerTeardown Signal.metric
            ∉ (setupOTelSDK env prop g0 ctx).events
        ∧ SetupEvent.publishGlobal Signal.metric
            ∉ (setupOTelSDK env prop g0 ctx).events
        ∧ (setupOTelSDK env prop g0 ctx).globals.meterProvider
            = g0.meterProvider)
    ∧ (∀ e, env.newLoggerProvider = Except.error e →
        SetupEvent.registerTeardown Signal.log
            ∉ (setupOTelSDK env prop g0 ctx).events
        ∧ SetupEvent.publishGlobal Signal.log
            ∉ (setupOTelSDK env prop g0 ctx).events
        ∧ (setupOTelSDK env prop g0 ctx).globals.loggerProvider
            = g0.loggerProvider) := by
  rcases h1 : env.newTracerProvider with e | t
  · have hev : (setupOTelSDK env prop g0 ctx).events
        = [SetupEvent.setTextMapPropagator,
            SetupEvent.constructCall Signal.trace] := by
      simp [setupOTelSDK, h1, drainRegs_eq]
    refine ⟨?_, ?_, ?_, ?_⟩
    · intro sg hmem; rw [hev] at hmem; cases sg <;> simp at hmem
    · exact fun e2 _ => ⟨by simp [hev], by simp [hev],
        by simp [setupOTelSDK, h1]⟩
    · exact fun e2 _ => ⟨by simp [hev], by simp [hev],
        by simp [setupOTelSDK, h1]⟩
    · exact fun e2 _ => ⟨by simp [hev], by simp [hev],
        by simp [setupOTelSDK, h1]⟩
  rcases h2 : env.newMeterProvider with e | m
  · have hev : (setupOTelSDK env prop g0 ctx).events
        = [SetupEvent.setTextMapPropagator,
            SetupEvent.constructCall Signal.trace,
            SetupEvent.registerTeardown Signal.trace,
            SetupEvent.publishGlobal Signal.trace,
            SetupEvent.constructCall Signal.metric,
            SetupEvent.runTeardown Signal.trace] := by
      simp [setupOTelSDK, h1, h2, drainRegs_eq]
    refine ⟨?_, ?_, ?_, ?_⟩
    · intro sg hmem
      cases sg
      · exact ⟨[SetupEvent.setTextMapPropagator,
            SetupEvent.constructCall Signal.trace], [],
          [SetupEvent.constructCall Signal.metric,
            SetupEvent.runTeardown Signal.trace], by simp [hev]⟩
      · rw [hev] at hmem; simp at hmem
      · rw [hev] at hmem; simp at hmem
    · intro e2 he2; exact Except.noConfusion he2
    · exact fun e2 _ => ⟨by simp [hev], by simp [hev],
        by simp [setupOTelSDK, h1, h2]⟩
    · exact fun e2 _ => ⟨by simp [hev], by simp [hev],
        by simp [setupOTelSDK, h1, h2]⟩
  rcases h3 : env.newLoggerProvider with e | l
  · have hev : (setupOTelSDK env prop g0 ctx).events
        = [SetupEvent.setTextMapPropagator,
            SetupEvent.constructCall Signal.trace,
            SetupEvent.registerTeardown Signal.trace,
            SetupEvent.publishGlobal Signal.trace,
            SetupEvent.constructCall Signal.metric,
            SetupEvent.registerTeardown Signal.metric,
            SetupEvent.publishGlobal Signal.metric,
            SetupEvent.constructCall Signal.log,
            SetupEvent.runTeardown Signal.trace,
            SetupEvent.runTeardown Signal.metric] := by
      simp [setupOTelSDK, h1, h2, h3, drainRegs_eq]
    refine ⟨?_, ?_, ?_, ?_⟩
    · intro sg hmem
      cases sg
      · exact ⟨[SetupEvent.setTextMapPropagator,
            SetupEvent.constructCall Signal.trace], [],
          [SetupEvent.constructCall Signal.metric,
            SetupEvent.registerTeardown Signal.metric,
            SetupEvent.publishGlobal Signal.metric,
            SetupEvent.constructCall Signal.log,
            SetupEvent.runTeardown Signal.trace,
            SetupEvent.runTeardown Signal.metric], by simp [hev]⟩
      · exact ⟨[SetupEvent.setTextMapPropagator,
            SetupEvent.constructCall Signal.trace,
            SetupEvent.registerTeardown Signal.trace,
            SetupEvent.publishGlobal Signal.trace,
            SetupEvent.constructCall Signal.metric], [],
          [SetupEvent.constructCall Signal.log,
            SetupEvent.runTeardown Signal.trace,
            SetupEvent.runTeardown Signal.metric], by simp [hev]⟩
      · rw [hev] at hmem; simp at hmem
    · intro e2 he2; exact Except.noConfusion he2
    · intro e2 he2; exact Except.noConfusion he2
    · exact fun e2 _ => ⟨by simp [hev], by simp [hev],
        by simp [setupOTelSDK, h1, h2, h3]⟩
  · have hev : (setupOTelSDK env prop g0 ctx).events
        = [SetupEvent.setTextMapPropagator,
            SetupEvent.constructCall Signal.trace,
            SetupEvent.registerTeardown Signal.trace,
            SetupEvent.publishGlobal Signal.trace,
            SetupEvent.constructCall Signal.metric,
            SetupEvent.registerTeardown Signal.metric,
            SetupEvent.publishGlobal Signal.metric,
            SetupEvent.constructCall Signal.log,
            SetupEvent.registerTeardown Signal.log,
            SetupEvent.publishGlobal Signal.log] := by
      simp [setupOTelSDK, h1, h2, h3]
    refine ⟨?_, ?_, ?_, ?_⟩
    · intro sg hmem
      cases sg
      · exact ⟨[SetupEvent.setTextMapPropagator,
            SetupEvent.constructCall Signal.trace], [],
          [SetupEvent.constructCall Signal.metric,
            SetupEvent.registerTeardown Signal.metric,
            SetupEvent.publishGlobal Signal.metric,
            SetupEvent.constructCall Signal.log,
            SetupEvent.registerTeardown Signal.log,
            SetupEvent.publishGlobal Signal.log], by simp [hev]⟩
      · exact ⟨[SetupEvent.setTextMapPropagator,
            SetupEvent.constructCall Signal.trace,
            SetupEvent.registerTeardown Signal.trace,
            SetupEvent.publishGlobal Signal.trace,
            SetupEvent.constructCall Signal.metric], [],
          [SetupEvent.constructCall Signal.log,
            SetupEvent.registerTeardown Signal.log,
            SetupEvent.publishGlobal Signal.log], by simp [hev]⟩
      · exact ⟨[SetupEvent.setTextMapPropagator,
            SetupEvent.constructCall Signal.trace,
            SetupEvent.registerTeardown Signal.trace,
            SetupEvent.publishGlobal Signal.trace,
            SetupEvent.constructCall Signal.metric,
            SetupEvent.registerTeardown Signal.metric,
            SetupEvent.publishGlobal Signal.metric,
            SetupEvent.constructCall Signal.log], [], [], by simp [hev]⟩
    · intro e2 he2; exact Except.noConfusion he2
    · intro e2 he2; exact Except.noConfusion he2
    · intro e2 he2; exact Except.noConfusion he2

/-- Witness for C8 at the concrete failing environment: the logger
constructor fails, so no logger teardown is registered and the global
logger provider keeps its entry value, while the published tracer
provider had its teardown registered earlier in the log. -/
theorem C8_register_before_publish_witness :
    SetupEvent.registerTeardown Signal.log
        ∉ (setupOTelSDK envLogFails () g0W ()).events
    ∧ (setupOTelSDK envLogFails () g0W ()).globals.loggerProvider = none
    ∧ eventBefore (SetupEvent.registerTeardown Signal.trace)
        (SetupEvent.publishGlobal Signal.trace)
        (setupOTelSDK envLogFails () g0W ()).events := by
  have h := (C8_register_before_publish envLogFails () g0W ()).2.2.2 7 rfl
  have h2 := (C8_register_before_publish envLogFails () g0W ()).1
    Signal.trace (by decide)
  exact ⟨h.1, h.2.2, h2⟩

end Dice
